import Mathlib

/-!
Shallow embedding of the UAE_anthem media-generation service.

The repository has two variants of the same pipeline core:
* `app.py` — a Gradio app keeping `JOB_STATUS : Dict[phone, job-dict]` under
  `_JOB_LOCK`, with `_run_pipeline`, `start_job` and `check_status`;
* `api/main.py` — a FastAPI app keeping `JOBS : Dict[job_id, job-dict]` under
  `JOBS_LOCK`, with `_run_pipeline`, `create_job` and `job_status`.
Both drive the remote clients `nano_banana_edit` and `wans2v` of `wave.py`
(submit + poll loops against the WaveSpeed API) and the quiz grader of
`quiz.py`.

Registries are modelled as association lists (Python dicts); each
lock-protected block of registry mutation is one atomic operation; the
outcomes of HTTP calls and S3/filesystem writes are supplied by explicit
environments.  Timestamps (`started_at`, `completed_at`, `failed_at`) are
omitted: no claim mentions them.
-/

set_option maxRecDepth 8000

namespace UAEAnthem

/-! ### Association-list model of a Python dict (the job registries) -/

/-- Python `d.get(i)` on a dict modelled as an association list. -/
def lookupT {α : Type} : List (String × α) → String → Option α
  | [], _ => none
  | (k, v) :: rest, i => if k = i then some v else lookupT rest i

/-- Python `d[i] = v` (insert or overwrite). -/
def setT {α : Type} : List (String × α) → String → α → List (String × α)
  | [], i, v => [(i, v)]
  | (k, w) :: rest, i, v => if k = i then (k, v) :: rest else (k, w) :: setT rest i v

/-- Python `d[i]["field"] = ...` : in-place update of an existing entry.
On an absent key Python would raise `KeyError`; in every modelled run the
owning runner has already initialised the key (a full-dict assignment), and
keys are never deleted, so the absent case cannot arise; it is a no-op here. -/
def updT {α : Type} : List (String × α) → String → (α → α) → List (String × α)
  | [], _, _ => []
  | (k, w) :: rest, i, f => if k = i then (k, f w) :: rest else (k, w) :: updT rest i f

/-! ### The `app.py` job registry and pipeline runner

`JOB_STATUS[phone] = {"status": ..., "video_path": ..., "error": ...}`. -/

/-- One entry of `app.py`'s `JOB_STATUS` dict. -/
structure AppJob where
  status : String
  video_path : Option String
  error : Option String
deriving Repr, DecidableEq

/-- `{"status": "image", "video_path": None, "error": None}` — the entry written
by `_run_pipeline`'s first lock-protected block (app.py lines 23-24). -/
def imageJob : AppJob := ⟨"image", none, none⟩

/-- The entry written by `_run_pipeline`'s `except` handler
(app.py lines 47-48): full overwrite with `status "failed"` and `error str(e)`. -/
def failedJob (msg : String) : AppJob := ⟨"failed", none, some msg⟩

/-- The four lock-protected registry mutations `app.py`'s `_run_pipeline`
performs, each tagged with the job identifier (the phone number) it targets.
`initOp` and `failOp` assign a whole fresh dict; `videoOp` and `completeOp`
mutate fields of the existing entry in place. -/
inductive Op where
  | initOp (id : String)
  | videoOp (id : String)
  | completeOp (id : String) (path : String)
  | failOp (id : String) (msg : String)
deriving Repr, DecidableEq

/-- The job identifier an operation targets. -/
def Op.idOf : Op → String
  | .initOp i => i
  | .videoOp i => i
  | .completeOp i _ => i
  | .failOp i _ => i

/-- Effect of one lock-protected block on the registry. -/
def applyOp : Op → List (String × AppJob) → List (String × AppJob)
  | .initOp i, r => setT r i imageJob
  | .videoOp i, r => updT r i (fun j => { j with status := "video" })
  | .completeOp i p, r =>
      updT r i (fun j => { j with status := "completed", video_path := some p })
  | .failOp i m, r => setT r i (failedJob m)

/-- Result of one fallible call inside the runner: a truthy value, a falsy
result (Python `None`, or an empty string), or a raised exception whose
`str(e)` is `msg`. -/
inductive PyRes where
  | val (s : String)
  | nil
  | exn (msg : String)
deriving Repr, DecidableEq

/-- Outcomes of the four external calls one `app.py` runner makes, in program
order: `qwen_edit` (now `nano_banana_edit`), `wans2v`, `save_photo`,
`save_video`. -/
structure AppEnv where
  edit : PyRes
  video : PyRes
  photo : PyRes
  save : PyRes
deriving Repr, DecidableEq

/-- The sequence of lock-protected registry mutations an `app.py` runner with
the given environment performs (app.py lines 21-48).  `save_photo`'s return
value is never inspected, so only an exception there changes control flow. -/
def appTrace (phone : String) (env : AppEnv) : List Op :=
  Op.initOp phone ::
    match env.edit with
    | .nil => [Op.failOp phone "Image generation failed"]
    | .exn m => [Op.failOp phone m]
    | .val _ =>
      Op.videoOp phone ::
        match env.video with
        | .nil => [Op.failOp phone "Video generation failed"]
        | .exn m => [Op.failOp phone m]
        | .val _ =>
          match env.photo with
          | .exn m => [Op.failOp phone m]
          | _ =>
            match env.save with
            | .nil => [Op.failOp phone "Saving video failed"]
            | .exn m => [Op.failOp phone m]
            | .val p => [Op.completeOp phone p]

/-- Interleaved execution of several runners.  `ts` holds the pending operation
suffix of each spawned runner; a step consumes the head operation of one of
them.  This is exactly the behaviour of the daemon threads of `start_job`:
each thread performs its own operations in order, arbitrarily interleaved,
every operation atomic because it holds `_JOB_LOCK`. -/
inductive Exec :
    List (String × AppJob) → List (List Op) →
    List (String × AppJob) → List (List Op) → Prop where
  | refl (r : List (String × AppJob)) (ts : List (List Op)) : Exec r ts r ts
  | step {r ts r₂ ts₂} (k : Nat) (op : Op) (rest : List Op)
      (hget : ts[k]? = some (op :: rest))
      (hnext : Exec (applyOp op r) (ts.set k rest) r₂ ts₂) :
      Exec r ts r₂ ts₂

/-- Executable replay of a schedule (a list of runner indices); used to build
concrete `Exec` derivations by evaluation. -/
def replay :
    List (String × AppJob) → List (List Op) → List Nat →
    Option (List (String × AppJob) × List (List Op))
  | r, ts, [] => some (r, ts)
  | r, ts, k :: ks =>
    match ts[k]? with
    | some (op :: rest) => replay (applyOp op r) (ts.set k rest) ks
    | _ => none

/-- The initial pending traces of a batch of spawned runners. -/
def tracesOf (specs : List (String × AppEnv)) : List (List Op) :=
  specs.map (fun s => appTrace s.1 s.2)

/-- The spec's registry invariant: the video reference is set iff the stage is
`completed`, and the error is set iff the stage is `failed`. -/
def jobInv (j : AppJob) : Prop :=
  (j.video_path.isSome ↔ j.status = "completed") ∧
    (j.error.isSome ↔ j.status = "failed")

/-- All operations of a trace target the given identifier. -/
def targetsId (i : String) (t : List Op) : Prop := ∀ op ∈ t, op.idOf = i

/-- Shapes of the part of a runner trace that follows its `initOp`. -/
inductive Mid (i : String) : List Op → Prop where
  | fail (m : String) : Mid i [Op.failOp i m]
  | vid {rest : List Op} (m : String) (p : String)
      (h : rest = [Op.failOp i m] ∨ rest = [Op.completeOp i p]) :
      Mid i (Op.videoOp i :: rest)

/-- Shapes of the part of a runner trace that follows its `videoOp`. -/
inductive Tail (i : String) : List Op → Prop where
  | fail (m : String) : Tail i [Op.failOp i m]
  | done (p : String) : Tail i [Op.completeOp i p]

/-- Valid joint configurations of (registry entry at `i`, pending suffix) for
a runner owning identifier `i`, when no other runner writes `i`. -/
inductive Cfg (i : String) : Option AppJob → List Op → Prop where
  | fresh {mid : List Op} (h : Mid i mid) : Cfg i none (Op.initOp i :: mid)
  | editing {mid : List Op} (h : Mid i mid) : Cfg i (some imageJob) mid
  | progress {tl : List Op} (h : Tail i tl) :
      Cfg i (some { imageJob with status := "video" }) tl
  | term (s : Option AppJob) : Cfg i s []

/-- Inductive invariant for the interleaved execution of runners with pairwise
distinct identifiers. -/
structure Inv (r : List (String × AppJob)) (ts : List (List Op)) : Prop where
  reg : ∀ i j, lookupT r i = some j → jobInv j
  cfg : ∀ (k : Nat) (t : List Op), ts[k]? = some t →
    ∃ i, targetsId i t ∧ Cfg i (lookupT r i) t
  sep : ∀ (k₁ k₂ : Nat) (t₁ t₂ : List Op),
    ts[k₁]? = some t₁ → ts[k₂]? = some t₂ → k₁ ≠ k₂ →
    ∀ o₁ o₂, o₁ ∈ t₁ → o₂ ∈ t₂ → o₁.idOf ≠ o₂.idOf

/-- Validation of `start_job` (app.py lines 51-53): `if not all([img, age_gap,
phone]): raise gr.Error(...)`.  It consults only the three form fields — never
the registry — and on success unconditionally spawns a new runner thread. -/
def start_job_ok (img age_gap phone : String) : Bool :=
  !(img = "" || age_gap = "" || phone = "")

/-! ### The remote generation clients of `wave.py` -/

/-- Remote-reported status in a poll response (`result["status"]`). -/
inductive RemoteStatus where
  | completed
  | failed
  | processing
deriving Repr, DecidableEq

/-- One poll of `GET /predictions/{id}/result`: whether the HTTP status was
200, and the decoded body. -/
structure PollResponse where
  ok : Bool
  status : RemoteStatus
  outputs : List String
  error : Option String
deriving Repr, DecidableEq

/-- Outcome of a whole client call: a returned URL, a returned `None`, or an
escaped exception (already formatted as `api/main.py` formats it). -/
inductive CallOutcome where
  | success (url : String)
  | failure
  | exn (msg : String)
deriving Repr, DecidableEq

/-- The polling loop shared by `nano_banana_edit` (wave.py lines 191-214) and
`wans2v` (wave.py lines 270-292): at most `fuel` polls; `completed` returns
`outputs[0]` (an `IndexError` if the list is empty); `failed` and a non-200
poll return `None`; exhausting the budget times out and returns `None`. -/
def pollLoop (poll : Nat → PollResponse) : Nat → Nat → CallOutcome
  | 0, _ => .failure
  | fuel + 1, i =>
    if (poll i).ok then
      match (poll i).status with
      | .completed =>
        match (poll i).outputs with
        | [] => .exn "IndexError: list index out of range"
        | u :: _ => .success u
      | .failed => .failure
      | .processing => pollLoop poll fuel (i + 1)
    else .failure

/-- Number of HTTP polls the loop issues (one per iteration entered). -/
def pollCount (poll : Nat → PollResponse) : Nat → Nat → Nat
  | 0, _ => 0
  | fuel + 1, i =>
    if (poll i).ok then
      match (poll i).status with
      | .processing => pollCount poll fuel (i + 1) + 1
      | _ => 1
    else 1

/-- `max_retries = 360` in `nano_banana_edit` (wave.py line 191). -/
def nano_banana_max_retries : Nat := 360

/-- `time.sleep(0.1)` between image-edit polls (wave.py line 210), in ms. -/
def nano_banana_poll_sleep_ms : Nat := 100

/-- `max_retries = 240` in `wans2v` (wave.py line 270). -/
def wans2v_max_retries : Nat := 240

/-- `time.sleep(0.5)` between video polls (wave.py line 288), in ms. -/
def wans2v_poll_sleep_ms : Nat := 500

/-! ### Style-to-asset mapping (`data_info.py` constants, `wave.py` selection) -/

def bg_path : String := "data/newbg.png"
def img3_m : String := "data/male/dress2.jpeg"
def img3_f : String := "data/female/dress.jpeg"
def img3_b : String := "data/boy/dress.jpg"
def img3_g : String := "data/girl/dress.jpeg"
def prompt_m : String := "The man is wearing Emirati thobe. He is in the foreground against a studio background featuring an illustrated Dubai skyline with the flag , in a clean minimal line art style with beige and brown tones. half-body image. Professional studio photography, even lighting, clean composition."
def prompt_f : String := "The woman is wearing a black abaya with UAE flag colors embellished panel and beige hijab. She is in the foreground against a studio background featuring an illustrated Dubai skyline with the flag. half-body image,Professional photography, natural daylight, clear sky, realistic composition."
def prompt_b : String := "The boy is wearing Emirati thobe. He is in the foreground against a studio background featuring an illustrated Dubai skyline with the flag , in a clean minimal line art style with beige and brown tones. half-body image .Professional studio photography, even lighting, clean composition."
def prompt_g : String := "The girl is wearing a UAE flag colors dress. She is in the foreground against a studio background featuring an illustrated Dubai skyline with the flag. half-body image,  Professional photography, natural daylight, clear sky, realistic composition"
def audio_m : String := "data/male/audio1.mp3"
def audio_f : String := "data/female/audio1.mp3"
def audio_b : String := "data/boy/audio1.mp3"
def audio_g : String := "data/girl/audio1.mp3"
def prompt_mw : String := "The Man is singing UAE national anthem singing"
def prompt_fw : String := "The woman singing UAE national anthem singing."
def prompt_bw : String := "The boy is singing UAE national anthem singing."
def prompt_gw : String := "The girl is singing UAE national anthem singing."

/-- Costume-and-prompt selection of `nano_banana_edit` (wave.py lines 137-148):
`if Male ... elif Female ... elif Boy ... else` — every other value, the
`Girl` style included, takes the final `else` branch. -/
def edit_costume (age_gap : String) : String × String :=
  if age_gap = "Male" then (img3_m, prompt_m)
  else if age_gap = "Female" then (img3_f, prompt_f)
  else if age_gap = "Boy" then (img3_b, prompt_b)
  else (img3_g, prompt_g)

/-- Audio-and-prompt selection of `wans2v` (wave.py lines 224-235), with the
same `if/elif/else` shape. -/
def wans_assets (age_gap : String) : String × String :=
  if age_gap = "Male" then (audio_m, prompt_mw)
  else if age_gap = "Female" then (audio_f, prompt_fw)
  else if age_gap = "Boy" then (audio_b, prompt_bw)
  else (audio_g, prompt_gw)

/-- Environment of one `nano_banana_edit` call: the three `file_to_base64`
results (`None` on a missing file) and the submit POST outcome, plus the poll
responses. -/
structure EditEnv where
  img1_b64 : Option String
  img2_b64 : Option String
  img3_b64 : Option String
  submit_ok : Bool
  poll : Nat → PollResponse

/-- `nano_banana_edit` (wave.py lines 122-214): encode the three images, select
the costume and prompt from the style, POST the submission, then poll up to
`nano_banana_max_retries` times. -/
def nano_banana_edit (env : EditEnv) (age_gap : String) : CallOutcome :=
  match env.img1_b64 with
  | none => .failure
  | some _ =>
    let _sel := edit_costume age_gap
    match env.img2_b64, env.img3_b64 with
    | some _, some _ =>
      if env.submit_ok then pollLoop env.poll nano_banana_max_retries 0
      else .failure
    | _, _ => .failure

/-- Whether `nano_banana_edit` reaches its submission POST: it does whenever
all three images encode, regardless of the style value (the style selection
is a total `if/elif/else` that cannot fail). -/
def nano_banana_submits (env : EditEnv) (age_gap : String) : Bool :=
  let _sel := edit_costume age_gap
  env.img1_b64.isSome && env.img2_b64.isSome && env.img3_b64.isSome

/-- Environment of one `wans2v` call. -/
structure S2VEnv where
  audio_b64 : Option String
  submit_ok : Bool
  poll : Nat → PollResponse

/-- `wans2v` (wave.py lines 217-292): select audio and prompt from the style,
encode the audio, POST the submission, then poll up to `wans2v_max_retries`
times. -/
def wans2v (env : S2VEnv) (age_gap : String) : CallOutcome :=
  let _sel := wans_assets age_gap
  match env.audio_b64 with
  | none => .failure
  | some _ =>
    if env.submit_ok then pollLoop env.poll wans2v_max_retries 0
    else .failure

/-! ### The `api/main.py` pipeline, registry and status projection -/

/-- One entry of `api/main.py`'s `JOBS` dict (timestamps omitted). -/
structure ApiJob where
  status : String
  video_url : Option String
  image_url : Option String
  error : Option String
  phone : Option String
deriving Repr, DecidableEq

/-- The entry written by the api runner's first lock block (lines 106-114). -/
def initApiJob (phone : Option String) : ApiJob := ⟨"image", none, none, none, phone⟩

/-- The entry written by the api runner's `except` handler (lines 158-167):
full overwrite carrying `f"{type(e).__name__}: {e}"`. -/
def failedApiJob (msg : String) (phone : Option String) : ApiJob :=
  ⟨"failed", none, none, some msg, phone⟩

/-- Default `AWS_S3_PREFIX` (api/main.py line 34). -/
def s3KeyBase : String := "uae-national-day"

/-- Python `p.strip("/")` on character lists. -/
def pyStripSlash (s : String) : String :=
  String.mk (((s.toList.dropWhile (· == '/')).reverse.dropWhile (· == '/')).reverse)

/-- Python `p.replace("..", "")`: drop non-overlapping occurrences of `".."`,
scanning left to right. -/
def pyRemoveDots : List Char → List Char
  | [] => []
  | [c] => [c]
  | c :: d :: t =>
    if c == '.' && d == '.' then pyRemoveDots t
    else c :: pyRemoveDots (d :: t)

/-- `_s3_key` (api/main.py lines 65-67): keep the truthy parts, strip slashes,
drop `".."`, and join under the prefix. -/
def s3_key (parts : List String) : String :=
  String.intercalate "/"
    (s3KeyBase :: (parts.filter (fun p => p ≠ "")).map
      (fun p => String.mk (pyRemoveDots (pyStripSlash p).toList)))

def upload_key (job_id ext : String) : String := s3_key ["uploads", job_id ++ ext]
def image_key (job_id : String) : String := s3_key ["images", job_id ++ ".jpeg"]
def video_key (job_id : String) : String := s3_key ["videos", job_id ++ ".mp4"]

/-- One S3 write, tagged by which call site performed it: the original-upload
audit copy, the edited image, or the final video. -/
inductive S3Write where
  | orig (key : String)
  | image (key : String)
  | video (key : String)
deriving Repr, DecidableEq

/-- Environment of one api `_run_pipeline` run.  Each `Option String` is
`some m` when the corresponding call raises, `m` being the message the
`except` handler formats from it; `url_for` is `_s3_url_for_key`. -/
structure ApiEnv where
  editEnv : EditEnv
  s2vEnv : S2VEnv
  upload_exc : Option String
  img_fetch_exc : Option String
  img_put_exc : Option String
  vid_fetch_exc : Option String
  vid_put_exc : Option String
  url_for : String → String

/-- Result of an api pipeline run: the final registry, and the S3 writes
performed, in order. -/
structure PipelineResult where
  registry : List (String × ApiJob)
  s3_writes : List S3Write

/-- `_run_pipeline` of `api/main.py` (lines 104-167): init the job, upload the
original, run the image edit, mark `video`, run the speech-to-video, fetch and
upload both artifacts, then mark `completed` with both S3 URLs; any failure
overwrites the entry with a `failed` record. -/
def api_run_pipeline (env : ApiEnv) (job_id ext age_group : String)
    (phone : Option String) (r : List (String × ApiJob)) : PipelineResult :=
  let r := setT r job_id (initApiJob phone)
  match env.upload_exc with
  | some m => ⟨setT r job_id (failedApiJob m phone), []⟩
  | none =>
    let w₀ := [S3Write.orig (upload_key job_id ext)]
    match nano_banana_edit env.editEnv age_group with
    | .failure => ⟨setT r job_id (failedApiJob "RuntimeError: Image generation failed" phone), w₀⟩
    | .exn m => ⟨setT r job_id (failedApiJob m phone), w₀⟩
    | .success _ =>
      let r := updT r job_id (fun j => { j with status := "video" })
      match wans2v env.s2vEnv age_group with
      | .failure => ⟨setT r job_id (failedApiJob "RuntimeError: Video generation failed" phone), w₀⟩
      | .exn m => ⟨setT r job_id (failedApiJob m phone), w₀⟩
      | .success _ =>
        match env.img_fetch_exc with
        | some m => ⟨setT r job_id (failedApiJob m phone), w₀⟩
        | none =>
          match env.img_put_exc with
          | some m => ⟨setT r job_id (failedApiJob m phone), w₀⟩
          | none =>
            let w₁ := w₀ ++ [S3Write.image (image_key job_id)]
            match env.vid_fetch_exc with
            | some m => ⟨setT r job_id (failedApiJob m phone), w₁⟩
            | none =>
              match env.vid_put_exc with
              | some m => ⟨setT r job_id (failedApiJob m phone), w₁⟩
              | none =>
                let w₂ := w₁ ++ [S3Write.video (video_key job_id)]
                let r := updT r job_id (fun j =>
                  { j with status := "completed",
                           image_url := some (env.url_for (image_key job_id)),
                           video_url := some (env.url_for (video_key job_id)) })
                ⟨r, w₂⟩

/-- The JSON payload `job_status` builds (absent JSON keys are `none`). -/
structure StatusView where
  status : String
  error : Option String := none
  progress : Option String := none
  video_url : Option String := none
  image_url : Option String := none
  qr_url : Option String := none
deriving Repr, DecidableEq

/-- `GET /api/jobs/{job_id}` (api/main.py lines 213-231): an absent id yields
`{"status": "queued"}`; otherwise the payload starts from the job's status and
error and is extended per stage. -/
def job_status (r : List (String × ApiJob)) (job_id : String) : StatusView :=
  match lookupT r job_id with
  | none => { status := "queued" }
  | some job =>
    let base : StatusView := { status := job.status, error := job.error }
    if job.status = "completed" then
      { base with video_url := job.video_url, image_url := job.image_url,
                  qr_url := some ("/api/jobs/" ++ job_id ++ "/qr") }
    else if job.status = "image" then { base with progress := some "Editing image..." }
    else if job.status = "video" then { base with progress := some "Generating video..." }
    else base

/-- Outcome of `POST /api/jobs`: the HTTP response (error status code, or the
fresh job id), the registry after the request returns, and whether a runner
thread was spawned. -/
structure CreateOutcome where
  response : Except Nat String
  registry : List (String × ApiJob)
  runner_spawned : Bool

/-- `create_job` (api/main.py lines 176-211): reject an unrecognized
`age_group` or content type with HTTP 400 before anything else; on success
return the fresh id and spawn the runner.  The endpoint itself never writes
`JOBS` — the job record only appears when the spawned runner's first lock
block runs. -/
def create_job (r : List (String × ApiJob)) (job_id age_group content_type : String) :
    CreateOutcome :=
  if age_group ∉ (["Male", "Female", "Boy", "Girl"] : List String) then
    ⟨.error 400, r, false⟩
  else if content_type ∉ (["image/jpeg", "image/png"] : List String) then
    ⟨.error 400, r, false⟩
  else ⟨.ok job_id, r, true⟩

/-! ### The quiz grader (`quiz.py`) -/

/-- One question as `get_random_questions` returns it. -/
structure QuizQuestion where
  id : Nat
  question : String
  options : List String
  answer : Nat
deriving Repr, DecidableEq

/-- The dict `grade_answers` returns. -/
structure GradeResult where
  total : Nat
  correct : Nat
  score : ℚ
deriving Repr, DecidableEq

/-- Round-half-to-even to an integer (Python's `round`), on exact rationals
(the binary floating-point representation error is out of scope). -/
def roundHalfEven (q : ℚ) : ℤ :=
  let f := ⌊q⌋
  let r := q - f
  if r < 1 / 2 then f
  else if 1 / 2 < r then f + 1
  else if f % 2 = 0 then f else f + 1

/-- Python `round(x, 2)`. -/
def pyRound2 (q : ℚ) : ℚ := (roundHalfEven (q * 100) : ℚ) / 100

/-- `grade_answers` (quiz.py lines 36-43): `zip` truncates to the shorter
list, a `None` choice never counts, and the `if total else 0.0` guard avoids
dividing by zero. -/
def grade_answers (questions : List QuizQuestion) (chosen : List (Option Nat)) :
    GradeResult :=
  let total := questions.length
  let correct :=
    (questions.zip chosen).countP (fun qc => qc.2 == some qc.1.answer)
  let score : ℚ :=
    if total ≠ 0 then pyRound2 ((correct : ℚ) / (total : ℚ) * 100) else 0
  ⟨total, correct, score⟩

/-! ### Substring test used to state what a Timeout-flavored message is -/

/-- Whether `n` is an initial segment of `h`. -/
def seqStartsWith : List Char → List Char → Bool
  | [], _ => true
  | _ :: _, [] => false
  | a :: as, b :: bs => a == b && seqStartsWith as bs

/-- Whether `n` occurs contiguously inside `h`. -/
def containsSeq : List Char → List Char → Bool
  | n, [] => n.isEmpty
  | n, c :: t => seqStartsWith n (c :: t) || containsSeq n t

/-- A message mentions a timeout. -/
def timeoutFlavored (m : String) : Prop :=
  containsSeq "Timeout".toList m.toList = true ∨
    containsSeq "timeout".toList m.toList = true ∨
    containsSeq "timed out".toList m.toList = true

/-! ### Concrete environments used by witnesses and counterexamples -/

/-- A fully successful `app.py` runner environment. -/
def envOk : AppEnv :=
  ⟨.val "https://cdn/edited.jpeg", .val "https://cdn/video.mp4",
   .val "result/images/p.jpeg", .val "result/videos/p.mp4"⟩

/-- A poll response that is still processing. -/
def procResp : PollResponse := ⟨true, .processing, [], none⟩

/-- A poll response reporting completion with one output URL. -/
def doneResp (u : String) : PollResponse := ⟨true, .completed, [u], none⟩

/-- An image-edit environment whose first poll reports completion. -/
def editEnvOk : EditEnv :=
  ⟨some "b64img1", some "b64img2", some "b64img3", true, fun _ => doneResp "https://cdn/edited.jpeg"⟩

/-- A speech-to-video environment whose first poll reports completion. -/
def s2vEnvOk : S2VEnv :=
  ⟨some "b64audio", true, fun _ => doneResp "https://cdn/video.mp4"⟩

/-- A speech-to-video environment whose polls never resolve. -/
def s2vEnvStuck : S2VEnv := ⟨some "b64audio", true, fun _ => procResp⟩

/-- A fully successful api pipeline environment. -/
def apiEnvOk : ApiEnv :=
  ⟨editEnvOk, s2vEnvOk, none, none, none, none, none, fun k => "https://cdn.example/" ++ k⟩

/-- An api pipeline environment whose speech-to-video polls never resolve. -/
def apiEnvStuck : ApiEnv :=
  ⟨editEnvOk, s2vEnvStuck, none, none, none, none, none, fun k => "https://cdn.example/" ++ k⟩

/-- The registry entry the C4 counterexample interleaving reaches: stage
`video` with the video reference still set. -/
def badJob : AppJob := ⟨"video", some "result/videos/p.mp4", none⟩

/-- A completed registry entry, used as the pre-existing job in the C3
counterexample. -/
def doneJob : AppJob := ⟨"completed", some "result/videos/p.mp4", none⟩

/-- A sample quiz question. -/
def qDemo : QuizQuestion :=
  ⟨1, "How many emirates make up the UAE?", ["5", "6", "7", "8"], 2⟩

/-- A sample api registry holding one failed job. -/
def demoReg : List (String × ApiJob) :=
  [("a", ⟨"failed", none, none, some "boom", none⟩)]

/-- The runners spawned by submitting the same phone number twice. -/
def dupSpecs : List (String × AppEnv) := [("p", envOk), ("p", envOk)]

/-- Two distinct-identifier runners. -/
def demoSpecs : List (String × AppEnv) := [("a", envOk), ("b", envOk)]

/-! ### Registry lemmas -/

theorem lookupT_set_self {α : Type} (r : List (String × α)) (i : String) (v : α) :
    lookupT (setT r i v) i = some v := by
  induction r with
  | nil => simp [setT, lookupT]
  | cons hd tl ih =>
    obtain ⟨k, w⟩ := hd
    by_cases hk : k = i <;> simp [setT, lookupT, hk, ih]

theorem lookupT_set_ne {α : Type} (r : List (String × α)) (i i' : String) (v : α)
    (h : i ≠ i') : lookupT (setT r i v) i' = lookupT r i' := by
  induction r with
  | nil => simp [setT, lookupT, h]
  | cons hd tl ih =>
    obtain ⟨k, w⟩ := hd
    by_cases hk : k = i
    · subst hk
      simp [setT, lookupT, h]
    · by_cases hk' : k = i' <;> simp [setT, lookupT, hk, hk', ih, Ne.symm h]

theorem lookupT_upd_self {α : Type} (r : List (String × α)) (i : String) (f : α → α) :
    lookupT (updT r i f) i = (lookupT r i).map f := by
  induction r with
  | nil => simp [updT, lookupT]
  | cons hd tl ih =>
    obtain ⟨k, w⟩ := hd
    by_cases hk : k = i <;> simp [updT, lookupT, hk, ih]

theorem lookupT_upd_ne {α : Type} (r : List (String × α)) (i i' : String) (f : α → α)
    (h : i ≠ i') : lookupT (updT r i f) i' = lookupT r i' := by
  induction r with
  | nil => simp [updT, lookupT]
  | cons hd tl ih =>
    obtain ⟨k, w⟩ := hd
    by_cases hk : k = i
    · subst hk
      simp [updT, lookupT, h]
    · by_cases hk' : k = i' <;> simp [updT, lookupT, hk, hk', ih, Ne.symm h]

theorem lookupT_applyOp_ne (op : Op) (r : List (String × AppJob)) (i : String)
    (h : op.idOf ≠ i) : lookupT (applyOp op r) i = lookupT r i := by
  cases op with
  | initOp i' => exact lookupT_set_ne r i' i _ h
  | videoOp i' => exact lookupT_upd_ne r i' i _ h
  | completeOp i' p => exact lookupT_upd_ne r i' i _ h
  | failOp i' m => exact lookupT_set_ne r i' i _ h

/-! ### Generic list helpers -/

theorem nodup_get_ne {α : Type} {l : List α} (h : l.Nodup) {i j : Nat} (hij : i ≠ j)
    {a b : α} (ha : l[i]? = some a) (hb : l[j]? = some b) : a ≠ b := by
  induction l generalizing i j with
  | nil => simp at ha
  | cons x xs ih =>
    rw [List.nodup_cons] at h
    match i, j with
    | 0, 0 => exact absurd rfl hij
    | 0, j + 1 =>
      simp only [List.getElem?_cons_zero, Option.some.injEq] at ha
      subst ha
      intro hab
      exact h.1 (hab ▸ List.getElem?_mem (by simpa using hb))
    | i + 1, 0 =>
      simp only [List.getElem?_cons_zero, Option.some.injEq] at hb
      subst hb
      intro hab
      exact h.1 (hab ▸ List.getElem?_mem (by simpa using ha))
    | i + 1, j + 1 =>
      refine ih h.2 ?_ (by simpa using ha) (by simpa using hb)
      intro hc
      exact hij (by omega)

/-! ### Replay builds executions -/

theorem replay_exec (ks : List Nat) :
    ∀ r ts r₂ ts₂, replay r ts ks = some (r₂, ts₂) → Exec r ts r₂ ts₂ := by
  induction ks with
  | nil =>
    intro r ts r₂ ts₂ h
    simp only [replay, Option.some.injEq, Prod.mk.injEq] at h
    rw [← h.1, ← h.2]
    exact Exec.refl r ts
  | cons k ks ih =>
    intro r ts r₂ ts₂ h
    unfold replay at h
    cases hg : ts[k]? with
    | none => rw [hg] at h; simp at h
    | some t =>
      cases t with
      | nil => rw [hg] at h; simp at h
      | cons op rest =>
        rw [hg] at h
        exact Exec.step k op rest hg (ih _ _ _ _ h)

/-! ### Polling-loop lemmas -/

theorem pollCount_le (poll : Nat → PollResponse) :
    ∀ n s, pollCount poll n s ≤ n := by
  intro n
  induction n with
  | zero => intro s; simp [pollCount]
  | succ m ih =>
    intro s
    simp only [pollCount]
    split
    · split
      all_goals first
        | omega
        | exact Nat.succ_le_succ (ih (s + 1))
    · omega

theorem pollLoop_stuck (poll : Nat → PollResponse)
    (h : ∀ i, (poll i).ok = true ∧ (poll i).status = .processing) :
    ∀ n s, pollLoop poll n s = .failure := by
  intro n
  induction n with
  | zero => intro s; simp [pollLoop]
  | succ m ih =>
    intro s
    simp only [pollLoop, (h s).1, (h s).2, if_true]
    exact ih (s + 1)

theorem pollLoop_first_completed (poll : Nat → PollResponse) :
    ∀ k n s, k < n →
      (∀ j, j < k → (poll (s + j)).ok = true ∧ (poll (s + j)).status = .processing) →
      (poll (s + k)).ok = true → (poll (s + k)).status = .completed →
      ∀ u us, (poll (s + k)).outputs = u :: us → pollLoop poll n s = .success u := by
  intro k
  induction k with
  | zero =>
    intro n s hn _ hok hst u us hout
    match n, hn with
    | m + 1, _ =>
      rw [Nat.add_zero] at hok hst hout
      simp [pollLoop, hok, hst, hout]
  | succ k ih =>
    intro n s hn hpre hok hst u us hout
    match n, hn with
    | m + 1, hn =>
      have h0 := hpre 0 (Nat.succ_pos k)
      rw [Nat.add_zero] at h0
      simp only [pollLoop, h0.1, h0.2, if_true]
      have harith : ∀ j : Nat, s + 1 + j = s + (j + 1) := by omega
      refine ih m (s + 1) (by omega) (fun j hj => ?_) ?_ ?_ u us ?_
      · rw [harith j]; exact hpre (j + 1) (by omega)
      · rw [harith k]; exact hok
      · rw [harith k]; exact hst
      · rw [harith k]; exact hout

theorem pollLoop_first_failed (poll : Nat → PollResponse) :
    ∀ k n s, k < n →
      (∀ j, j < k → (poll (s + j)).ok = true ∧ (poll (s + j)).status = .processing) →
      (poll (s + k)).ok = true → (poll (s + k)).status = .failed →
      pollLoop poll n s = .failure := by
  intro k
  induction k with
  | zero =>
    intro n s hn _ hok hst
    match n, hn with
    | m + 1, _ =>
      rw [Nat.add_zero] at hok hst
      simp [pollLoop, hok, hst]
  | succ k ih =>
    intro n s hn hpre hok hst
    match n, hn with
    | m + 1, hn =>
      have h0 := hpre 0 (Nat.succ_pos k)
      rw [Nat.add_zero] at h0
      simp only [pollLoop, h0.1, h0.2, if_true]
      have harith : ∀ j : Nat, s + 1 + j = s + (j + 1) := by omega
      refine ih m (s + 1) (by omega) (fun j hj => ?_) ?_ ?_
      · rw [harith j]; exact hpre (j + 1) (by omega)
      · rw [harith k]; exact hok
      · rw [harith k]; exact hst

/-! ### Runner-trace lemmas -/

theorem appTrace_targets (phone : String) (env : AppEnv) :
    targetsId phone (appTrace phone env) := by
  obtain ⟨e, v, p, s⟩ := env
  cases e <;> cases v <;> cases p <;> cases s <;>
    simp [appTrace, targetsId, List.forall_mem_cons, Op.idOf]

theorem appTrace_shape (phone : String) (env : AppEnv) :
    ∃ mid, appTrace phone env = Op.initOp phone :: mid ∧ Mid phone mid := by
  obtain ⟨e, v, p, s⟩ := env
  cases e with
  | nil => exact ⟨_, rfl, Mid.fail _⟩
  | exn m => exact ⟨_, rfl, Mid.fail _⟩
  | val _ =>
    cases v with
    | nil => exact ⟨_, rfl, Mid.vid _ "" (Or.inl rfl)⟩
    | exn m => exact ⟨_, rfl, Mid.vid _ "" (Or.inl rfl)⟩
    | val _ =>
      cases p with
      | exn m => exact ⟨_, rfl, Mid.vid _ "" (Or.inl rfl)⟩
      | nil =>
        cases s with
        | nil => exact ⟨_, rfl, Mid.vid _ "" (Or.inl rfl)⟩
        | exn m => exact ⟨_, rfl, Mid.vid _ "" (Or.inl rfl)⟩
        | val q => exact ⟨_, rfl, Mid.vid "" q (Or.inr rfl)⟩
      | val _ =>
        cases s with
        | nil => exact ⟨_, rfl, Mid.vid _ "" (Or.inl rfl)⟩
        | exn m => exact ⟨_, rfl, Mid.vid _ "" (Or.inl rfl)⟩
        | val q => exact ⟨_, rfl, Mid.vid "" q (Or.inr rfl)⟩

/-! ### Preservation of the registry invariant (distinct-identifier runs) -/

theorem inv_step_aux {r : List (String × AppJob)} {ts : List (List Op)} {k : Nat}
    {op : Op} {rest : List Op} {i : String} {j : AppJob}
    (hinv : Inv r ts) (hget : ts[k]? = some (op :: rest))
    (htg : targetsId i (op :: rest))
    (hnew : lookupT (applyOp op r) i = some j)
    (hjinv : jobInv j)
    (hcfg : Cfg i (some j) rest) : Inv (applyOp op r) (ts.set k rest) := by
  have hop : op.idOf = i := htg op (List.mem_cons_self _ _)
  have hklen : k < ts.length := by
    rcases List.getElem?_eq_some_iff.1 hget with ⟨hl, _⟩
    exact hl
  refine ⟨?_, ?_, ?_⟩
  · intro i' j' h'
    by_cases hi : i' = i
    · subst hi
      rw [hnew] at h'
      cases h'
      exact hjinv
    · rw [lookupT_applyOp_ne op r i' (by rw [hop]; exact Ne.symm hi)] at h'
      exact hinv.reg i' j' h'
  · intro k' t' h'
    by_cases hk : k' = k
    · subst hk
      rw [List.getElem?_set_self hklen] at h'
      cases h'
      exact ⟨i, fun o ho => htg o (List.mem_cons_of_mem _ ho), hnew ▸ hcfg⟩
    · rw [List.getElem?_set_ne (fun hc => hk hc.symm)] at h'
      obtain ⟨i', htg', hcfg'⟩ := hinv.cfg k' t' h'
      cases t' with
      | nil => exact ⟨i', htg', Cfg.term _⟩
      | cons o t'' =>
        have hne : op.idOf ≠ o.idOf :=
          hinv.sep k k' _ _ hget h' (fun hc => hk hc.symm) op o
            (List.mem_cons_self _ _) (List.mem_cons_self _ _)
        have hii : i ≠ i' := by
          rw [hop] at hne
          rw [htg' o (List.mem_cons_self _ _)] at hne
          exact hne
        refine ⟨i', htg', ?_⟩
        rw [lookupT_applyOp_ne op r i' (by rw [hop]; exact hii)]
        exact hcfg'
  · intro k₁ k₂ t₁ t₂ h₁ h₂ hkk o₁ o₂ m₁ m₂
    by_cases hk1 : k₁ = k
    · subst hk1
      rw [List.getElem?_set_self hklen] at h₁
      cases h₁
      rw [List.getElem?_set_ne hkk] at h₂
      exact hinv.sep k₁ k₂ _ _ hget h₂ hkk o₁ o₂ (List.mem_cons_of_mem _ m₁) m₂
    · rw [List.getElem?_set_ne (fun hc => hk1 hc.symm)] at h₁
      by_cases hk2 : k₂ = k
      · subst hk2
        rw [List.getElem?_set_self hklen] at h₂
        cases h₂
        exact hinv.sep k₁ k₂ _ _ h₁ hget hkk o₁ o₂ m₁ (List.mem_cons_of_mem _ m₂)
      · rw [List.getElem?_set_ne (fun hc => hk2 hc.symm)] at h₂
        exact hinv.sep k₁ k₂ _ _ h₁ h₂ hkk o₁ o₂ m₁ m₂

theorem inv_step {r : List (String × AppJob)} {ts : List (List Op)} {k : Nat}
    {op : Op} {rest : List Op}
    (hinv : Inv r ts) (hget : ts[k]? = some (op :: rest)) :
    Inv (applyOp op r) (ts.set k rest) := by
  obtain ⟨i, htg, hcfg⟩ := hinv.cfg k _ hget
  generalize hs : lookupT r i = s at hcfg
  cases hcfg with
  | fresh hmid =>
    refine inv_step_aux (j := imageJob) hinv hget htg
      (lookupT_set_self r i imageJob) (by simp [jobInv, imageJob])
      (Cfg.editing hmid)
  | editing hmid =>
    cases hmid with
    | fail m =>
      exact inv_step_aux (j := failedJob m) hinv hget htg
        (lookupT_set_self r i (failedJob m)) (by simp [jobInv, failedJob])
        (Cfg.term _)
    | vid m p hrest =>
      refine inv_step_aux (j := { imageJob with status := "video" }) hinv hget htg
        ?_ (by simp [jobInv, imageJob]) ?_
      · rw [show applyOp (Op.videoOp i) r =
            updT r i (fun j => { j with status := "video" }) from rfl,
          lookupT_upd_self, hs]
        rfl
      · rcases hrest with h | h <;> subst h
        · exact Cfg.progress (Tail.fail m)
        · exact Cfg.progress (Tail.done p)
  | progress htl =>
    cases htl with
    | fail m =>
      exact inv_step_aux (j := failedJob m) hinv hget htg
        (lookupT_set_self r i (failedJob m)) (by simp [jobInv, failedJob])
        (Cfg.term _)
    | done p =>
      refine inv_step_aux (j := ⟨"completed", some p, none⟩) hinv hget htg
        ?_ (by simp [jobInv]) (Cfg.term _)
      rw [show applyOp (Op.completeOp i p) r =
          updT r i (fun j => { j with status := "completed", video_path := some p })
          from rfl,
        lookupT_upd_self, hs]
      rfl

theorem inv_exec {r ts r₂ ts₂} (hex : Exec r ts r₂ ts₂) (hinv : Inv r ts) :
    Inv r₂ ts₂ := by
  induction hex with
  | refl r ts => exact hinv
  | step k op rest hget hnext ih => exact ih (inv_step hinv hget)

theorem inv_init (specs : List (String × AppEnv))
    (h : (specs.map Prod.fst).Nodup) : Inv [] (tracesOf specs) := by
  refine ⟨?_, ?_, ?_⟩
  · intro i j hj
    cases hj
  · intro k t ht
    rw [tracesOf, List.getElem?_map] at ht
    cases hs : specs[k]? with
    | none => rw [hs] at ht; cases ht
    | some sp =>
      rw [hs] at ht
      cases ht
      obtain ⟨mid, hsh, hmid⟩ := appTrace_shape sp.1 sp.2
      refine ⟨sp.1, appTrace_targets sp.1 sp.2, ?_⟩
      show Cfg sp.1 none (appTrace sp.1 sp.2)
      rw [hsh]
      exact Cfg.fresh hmid
  · intro k₁ k₂ t₁ t₂ h₁ h₂ hkk o₁ o₂ m₁ m₂
    rw [tracesOf, List.getElem?_map] at h₁ h₂
    cases hs₁ : specs[k₁]? with
    | none => rw [hs₁] at h₁; cases h₁
    | some sp₁ =>
      cases hs₂ : specs[k₂]? with
      | none => rw [hs₂] at h₂; cases h₂
      | some sp₂ =>
        rw [hs₁] at h₁
        rw [hs₂] at h₂
        cases h₁
        cases h₂
        rw [appTrace_targets sp₁.1 sp₁.2 o₁ m₁, appTrace_targets sp₂.1 sp₂.2 o₂ m₂]
        refine nodup_get_ne h hkk ?_ ?_
        · rw [List.getElem?_map, hs₁]; rfl
        · rw [List.getElem?_map, hs₂]; rfl

/-! ### Zip-truncation lemmas for the quiz grader -/

theorem zip_append_left {α β : Type} (qs : List α) (c e : List β)
    (h : qs.length ≤ c.length) : qs.zip (c ++ e) = qs.zip c := by
  induction qs generalizing c with
  | nil => simp
  | cons q qt ih =>
    cases c with
    | nil => simp at h
    | cons x ct =>
      simp only [List.cons_append, List.zip_cons_cons]
      rw [ih ct (by simpa using h)]

theorem zip_append_right {α β : Type} (qs e : List α) (c : List β)
    (h : c.length ≤ qs.length) : (qs ++ e).zip c = qs.zip c := by
  induction qs generalizing c with
  | nil =>
    cases c with
    | nil => simp
    | cons x ct => simp at h
  | cons q qt ih =>
    cases c with
    | nil => simp
    | cons x ct =>
      simp only [List.cons_append, List.zip_cons_cons]
      rw [ih ct (by simpa using h)]

/-! ### Claim C7 — polling budgets and outcomes -/

/-- C7: each remote polling loop is budget-bounded: the image-edit client
polls at 0.1 s intervals at most 360 times, the speech-to-video client at
0.5 s intervals at most 240 times; a loop performs at most its budget in
polls, exhausting the budget yields the timeout failure, the first
`completed` poll within the budget returns the first output reference, and
the first `failed` poll within the budget yields failure. -/
theorem C7_polling_budget :
    (nano_banana_max_retries = 360 ∧ nano_banana_poll_sleep_ms = 100 ∧
       wans2v_max_retries = 240 ∧ wans2v_poll_sleep_ms = 500) ∧
      (∀ (a b c : String) (ok : Bool) (poll : Nat → PollResponse) (S : String),
        nano_banana_edit ⟨some a, some b, some c, ok, poll⟩ S =
          if ok then pollLoop poll nano_banana_max_retries 0 else .failure) ∧
      (∀ (a : String) (ok : Bool) (poll : Nat → PollResponse) (S : String),
        wans2v ⟨some a, ok, poll⟩ S =
          if ok then pollLoop poll wans2v_max_retries 0 else .failure) ∧
      (∀ (poll : Nat → PollResponse) (n s : Nat), pollCount poll n s ≤ n) ∧
      (∀ (poll : Nat → PollResponse) (n s : Nat),
        (∀ i, (poll i).ok = true ∧ (poll i).status = .processing) →
        pollLoop poll n s = .failure) ∧
      (∀ (poll : Nat → PollResponse) (n k : Nat) (u : String) (us : List String),
        k < n →
        (∀ j, j < k → (poll j).ok = true ∧ (poll j).status = .processing) →
        (poll k).ok = true → (poll k).status = .completed →
        (poll k).outputs = u :: us → pollLoop poll n 0 = .success u) ∧
      (∀ (poll : Nat → PollResponse) (n k : Nat),
        k < n →
        (∀ j, j < k → (poll j).ok = true ∧ (poll j).status = .processing) →
        (poll k).ok = true → (poll k).status = .failed →
        pollLoop poll n 0 = .failure) := by
  refine ⟨⟨rfl, rfl, rfl, rfl⟩, fun a b c ok poll S => rfl, fun a ok poll S => rfl,
    pollCount_le, fun poll n s h => pollLoop_stuck poll h n s, ?_, ?_⟩
  · intro poll n k u us hk hpre hok hst hout
    refine pollLoop_first_completed poll k n 0 hk (fun j hj => ?_) ?_ ?_ u us ?_
    · rw [Nat.zero_add]; exact hpre j hj
    · rw [Nat.zero_add]; exact hok
    · rw [Nat.zero_add]; exact hst
    · rw [Nat.zero_add]; exact hout
  · intro poll n k hk hpre hok hst
    refine pollLoop_first_failed poll k n 0 hk (fun j hj => ?_) ?_ ?_
    · rw [Nat.zero_add]; exact hpre j hj
    · rw [Nat.zero_add]; exact hok
    · rw [Nat.zero_add]; exact hst

/-- Witness for C7 at concrete polls. -/
theorem C7_polling_budget_witness :
    pollCount (fun _ => procResp) 240 0 ≤ 240 ∧
      pollLoop (fun _ => procResp) wans2v_max_retries 0 = .failure ∧
      pollLoop (fun _ => doneResp "u") nano_banana_max_retries 0 = .success "u" ∧
      pollLoop (fun _ => ⟨true, .failed, [], some "boom"⟩) 240 0 = .failure := by
  obtain ⟨-, -, -, hcount, hstuck, hdone, hfail⟩ := C7_polling_budget
  refine ⟨hcount _ 240 0, hstuck _ _ 0 (fun i => ⟨rfl, rfl⟩), ?_, ?_⟩
  · exact hdone _ _ 0 "u" [] (by decide) (fun j hj => absurd hj (Nat.not_lt_zero j))
      rfl rfl rfl
  · exact hfail _ 240 0 (by decide) (fun j hj => absurd hj (Nat.not_lt_zero j)) rfl rfl

/-! ### Claim C9 — absent job id projects to queued -/

/-- C9: querying a job identifier absent from the registry yields the payload
{status:"queued"} rather than a not-found error — the same payload an empty
registry (a job never submitted) yields, so the two are indistinguishable. -/
theorem C9_absent_is_queued (r : List (String × ApiJob)) (i : String)
    (h : lookupT r i = none) :
    job_status r i = { status := "queued" } ∧ job_status r i = job_status [] i := by
  constructor
  · simp [job_status, h]
  · simp [job_status, h, lookupT]

/-- Witness for C9 on a registry not containing the queried id. -/
theorem C9_absent_is_queued_witness :
    job_status demoReg "zzz" = { status := "queued" } ∧
      job_status demoReg "zzz" = job_status [] "zzz" :=
  C9_absent_is_queued demoReg "zzz" (by decide)

/-! ### Claim C10 — totality of the quiz grader -/

/-- C10: `grade_answers` is total: an empty question list yields the zero
result (no division error), `total` is the number of questions, `correct` is
at most `total`, and the positional pairing ignores excess elements of the
longer list. -/
theorem C10_grade_answers_total (qs : List QuizQuestion) (chosen : List (Option Nat)) :
    (grade_answers qs chosen).total = qs.length ∧
      (grade_answers qs chosen).correct ≤ qs.length ∧
      (qs = [] → grade_answers qs chosen = ⟨0, 0, 0⟩) ∧
      (∀ extra, qs.length ≤ chosen.length →
        grade_answers qs (chosen ++ extra) = grade_answers qs chosen) ∧
      (∀ extraQ, chosen.length ≤ qs.length →
        (grade_answers (qs ++ extraQ) chosen).correct =
          (grade_answers qs chosen).correct) := by
  refine ⟨rfl, ?_, ?_, ?_, ?_⟩
  · calc (grade_answers qs chosen).correct
        ≤ (qs.zip chosen).length := List.countP_le_length _
      _ ≤ qs.length := by
          rw [List.length_zip]
          exact min_le_left _ _
  · intro h
    subst h
    rfl
  · intro extra h
    simp only [grade_answers, zip_append_left qs chosen extra h]
  · intro extraQ h
    simp only [grade_answers, zip_append_right qs extraQ chosen h]

/-- Witness for C10 at a concrete quiz. -/
theorem C10_grade_answers_total_witness :
    (grade_answers [qDemo] [some 2]).total = 1 ∧
      (grade_answers [qDemo] [some 2]).correct ≤ 1 ∧
      grade_answers [qDemo] ([some 2] ++ [some 0]) = grade_answers [qDemo] [some 2] := by
  obtain ⟨h1, h2, -, h4, -⟩ := C10_grade_answers_total [qDemo] [some 2]
  exact ⟨h1, h2, h4 [some 0] (by decide)⟩

/-! ### Claim C6 — the status projection -/

/-- C6: the status projection is a pure function of the registry snapshot:
projecting twice yields identical output and the registry is never touched;
an absent (queued) id maps to {status:"queued"}; an in-progress job maps to
its status plus the progress message; a completed job to its status plus the
image, video and QR references; a failed job to its status plus the error. -/
theorem C6_projection (r r₂ : List (String × ApiJob)) (i : String) :
    (job_status r i = job_status r i) ∧
      (lookupT r₂ i = lookupT r i → job_status r₂ i = job_status r i) ∧
      (lookupT r i = none → job_status r i = { status := "queued" }) ∧
      ∀ j, lookupT r i = some j →
        ((j.status = "image" → job_status r i =
            { status := "image", error := j.error,
              progress := some "Editing image..." }) ∧
         (j.status = "video" → job_status r i =
            { status := "video", error := j.error,
              progress := some "Generating video..." }) ∧
         (j.status = "completed" → job_status r i =
            { status := "completed", error := j.error, video_url := j.video_url,
              image_url := j.image_url,
              qr_url := some ("/api/jobs/" ++ i ++ "/qr") }) ∧
         (j.status = "failed" → job_status r i =
            { status := "failed", error := j.error })) := by
  refine ⟨rfl, ?_, ?_, ?_⟩
  · intro h
    simp only [job_status, h]
  · intro h
    simp [job_status, h]
  · intro j hj
    refine ⟨?_, ?_, ?_, ?_⟩ <;> intro hst <;> simp [job_status, hj, hst]

/-- Witness for C6 on a concrete failed job. -/
theorem C6_projection_witness :
    job_status demoReg "a" = { status := "failed", error := some "boom" } := by
  obtain ⟨-, -, -, h⟩ := C6_projection demoReg demoReg "a"
  exact (h ⟨"failed", none, none, some "boom", none⟩ (by decide)).2.2.2 rfl

/-! ### Claim C1 — the success path completes with both references -/

/-- C1: for every valid style, when the original upload, both remote
generation calls, both artifact fetches and both S3 writes succeed, the
pipeline run leaves the job at stage completed with both the image and the
video S3 URLs set (and no error), and the status projection of that job
reports "completed". -/
theorem C1_success_completes (env : ApiEnv) (job_id ext S : String)
    (phone : Option String) (r : List (String × ApiJob)) (ua uv : String)
    (_hS : S ∈ (["Male", "Female", "Boy", "Girl"] : List String))
    (hup : env.upload_exc = none)
    (hedit : nano_banana_edit env.editEnv S = .success ua)
    (hs2v : wans2v env.s2vEnv S = .success uv)
    (hif : env.img_fetch_exc = none) (hip : env.img_put_exc = none)
    (hvf : env.vid_fetch_exc = none) (hvp : env.vid_put_exc = none) :
    lookupT (api_run_pipeline env job_id ext S phone r).registry job_id =
        some ⟨"completed", some (env.url_for (video_key job_id)),
          some (env.url_for (image_key job_id)), none, phone⟩ ∧
      (job_status (api_run_pipeline env job_id ext S phone r).registry job_id).status
        = "completed" := by
  have hreg : lookupT (api_run_pipeline env job_id ext S phone r).registry job_id =
      some ⟨"completed", some (env.url_for (video_key job_id)),
        some (env.url_for (image_key job_id)), none, phone⟩ := by
    simp only [api_run_pipeline, hup, hedit, hs2v, hif, hip, hvf, hvp]
    rw [lookupT_upd_self, lookupT_upd_self, lookupT_set_self]
    rfl
  refine ⟨hreg, ?_⟩
  simp [job_status, hreg]

/-- Witness for C1 with the fully successful "Boy" environment. -/
theorem C1_success_completes_witness :
    lookupT (api_run_pipeline apiEnvOk "job1" ".jpg" "Boy" (some "555") []).registry
        "job1" =
      some ⟨"completed", some (apiEnvOk.url_for (video_key "job1")),
        some (apiEnvOk.url_for (image_key "job1")), none, some "555"⟩ ∧
      (job_status (api_run_pipeline apiEnvOk "job1" ".jpg" "Boy" (some "555") []).registry
        "job1").status = "completed" :=
  C1_success_completes apiEnvOk "job1" ".jpg" "Boy" (some "555") []
    "https://cdn/edited.jpeg" "https://cdn/video.mp4"
    (by decide) rfl (by decide) (by decide) rfl rfl rfl rfl

/-! ### Claim C2 — unrecognized styles do not fail fast -/

/-- C2 counterexample: for the unrecognized style "Alien" the costume mapping
does not fail fast: it selects the Girl (costume, prompt) pair through the
final `else` branch, the submission POST is still issued, and the whole edit
call even succeeds. -/
theorem C2_counterexample :
    "Alien" ∉ (["Male", "Female", "Boy", "Girl"] : List String) ∧
      edit_costume "Alien" = (img3_g, prompt_g) ∧
      nano_banana_submits editEnvOk "Alien" = true ∧
      nano_banana_edit editEnvOk "Alien" = .success "https://cdn/edited.jpeg" := by
  exact ⟨by decide, by decide, by decide, by decide⟩

/-- C2 (amended): the style mapping is total but not fail-fast: every style
outside the recognized set is mapped to the Girl (costume, prompt) and
(audio, prompt) pairs, and both remote clients behave exactly as they do for
"Girl". -/
theorem C2_unknown_style_maps_to_girl (S : String)
    (h : S ∉ (["Male", "Female", "Boy", "Girl"] : List String)) :
    edit_costume S = (img3_g, prompt_g) ∧
      wans_assets S = (audio_g, prompt_gw) ∧
      (∀ env, nano_banana_edit env S = nano_banana_edit env "Girl") ∧
      (∀ env, nano_banana_submits env S = nano_banana_submits env "Girl") ∧
      (∀ env, wans2v env S = wans2v env "Girl") := by
  simp only [List.mem_cons, List.not_mem_nil, or_false, not_or] at h
  obtain ⟨h1, h2, h3, h4⟩ := h
  refine ⟨?_, ?_, ?_, ?_, ?_⟩
  · simp [edit_costume, h1, h2, h3]
  · simp [wans_assets, h1, h2, h3]
  · intro env; rfl
  · intro env; rfl
  · intro env; rfl

/-- Witness for C2's amended statement at the style "Alien". -/
theorem C2_unknown_style_maps_to_girl_witness :
    edit_costume "Alien" = (img3_g, prompt_g) ∧
      wans_assets "Alien" = (audio_g, prompt_gw) ∧
      nano_banana_edit editEnvOk "Alien" = nano_banana_edit editEnvOk "Girl" ∧
      wans2v s2vEnvOk "Alien" = wans2v s2vEnvOk "Girl" := by
  obtain ⟨a, b, c, -, d⟩ := C2_unknown_style_maps_to_girl "Alien" (by decide)
  exact ⟨a, b, c editEnvOk, d s2vEnvOk⟩

/-! ### Claim C3 — no duplicate-identifier check on job creation -/

/-- C3 counterexample: submitting again with the phone number "p", which
already has a completed job, raises no duplicate-identifier error
(`start_job` validates nothing but non-emptiness and never consults the
registry), and the second runner it spawns overwrites the existing job's
state with a fresh in-progress record. -/
theorem C3_counterexample :
    start_job_ok "photo.jpg" "Boy" "p" = true ∧
      Exec [("p", doneJob)] [appTrace "p" envOk]
        [("p", imageJob)]
        [[Op.videoOp "p", Op.completeOp "p" "result/videos/p.mp4"]] ∧
      lookupT [("p", imageJob)] "p" ≠ some doneJob := by
  exact ⟨by decide, replay_exec [0] _ _ _ _ (by decide), by decide⟩

/-- C3 (amended): job creation performs no duplicate-identifier check:
`start_job` accepts any submission with non-empty fields independently of the
registry and unconditionally spawns a fresh runner, whose first operation
overwrites whatever record the identifier already had. -/
theorem C3_no_duplicate_check (img S p : String) (r : List (String × AppJob))
    (env : AppEnv) (h1 : img ≠ "") (h2 : S ≠ "") (h3 : p ≠ "") :
    start_job_ok img S p = true ∧
      (appTrace p env).head? = some (Op.initOp p) ∧
      lookupT (applyOp (Op.initOp p) r) p = some imageJob := by
  obtain ⟨mid, hsh, -⟩ := appTrace_shape p env
  refine ⟨?_, ?_, lookupT_set_self r p imageJob⟩
  · simp [start_job_ok, h1, h2, h3]
  · rw [hsh]
    rfl

/-- Witness for C3's amended statement: a resubmission of "p" over a registry
that already holds a completed job for "p". -/
theorem C3_no_duplicate_check_witness :
    start_job_ok "photo.jpg" "Boy" "p" = true ∧
      (appTrace "p" envOk).head? = some (Op.initOp "p") ∧
      lookupT (applyOp (Op.initOp "p") [("p", doneJob)]) "p" = some imageJob :=
  C3_no_duplicate_check "photo.jpg" "Boy" "p" [("p", doneJob)] envOk
    (by decide) (by decide) (by decide)

/-! ### Claim C4 — the registry invariant -/

/-- C4 counterexample: two runners spawned for the same identifier "p" (a
duplicate submission, which `start_job` permits) can interleave as
init-A, video-A, init-B, complete-A, video-B, reaching a registry whose job
is at stage "video" with the video reference still set — the invariant
"video reference set iff completed" fails on a reachable state. -/
theorem C4_counterexample :
    Exec [] (tracesOf dupSpecs)
        [("p", badJob)] [[], [Op.completeOp "p" "result/videos/p.mp4"]] ∧
      lookupT [("p", badJob)] "p" = some badJob ∧
      ¬ jobInv badJob := by
  refine ⟨replay_exec [0, 0, 1, 0, 1] _ _ _ _ (by decide), by decide, ?_⟩
  unfold jobInv badJob
  decide

/-- C4 (amended): in every registry state reachable by interleaving pipeline
runners with pairwise distinct job identifiers (one runner per id, as in the
api variant's fresh UUIDs), every job satisfies: the video reference is set
iff the stage is completed, and the error is set iff the stage is failed. -/
theorem C4_invariant_distinct_ids (specs : List (String × AppEnv))
    (r : List (String × AppJob)) (ts : List (List Op))
    (hids : (specs.map Prod.fst).Nodup)
    (hex : Exec [] (tracesOf specs) r ts) :
    ∀ i j, lookupT r i = some j → jobInv j :=
  (inv_exec hex (inv_init specs hids)).reg

/-- Witness for C4's amended statement: a finished run of two
distinct-identifier runners. -/
theorem C4_invariant_distinct_ids_witness :
    jobInv (⟨"completed", some "result/videos/p.mp4", none⟩ : AppJob) :=
  C4_invariant_distinct_ids demoSpecs
    [("a", ⟨"completed", some "result/videos/p.mp4", none⟩)]
    [[], appTrace "b" envOk]
    (by decide)
    (replay_exec [0, 0, 0] _ _ _ _ (by decide))
    "a" _ (by decide)

/-! ### Claim C5 — video timeout ends failed without a video upload -/

/-- C5 counterexample: when every speech-to-video poll keeps processing, the
retry budget is exhausted and the job does end failed with no S3 write for
the video — but the error it carries is the generic
"RuntimeError: Video generation failed", which is not Timeout-flavored. -/
theorem C5_counterexample :
    wans2v s2vEnvStuck "Boy" = .failure ∧
      (api_run_pipeline apiEnvStuck "job1" ".jpg" "Boy" none []).registry =
        [("job1", failedApiJob "RuntimeError: Video generation failed" none)] ∧
      (api_run_pipeline apiEnvStuck "job1" ".jpg" "Boy" none []).s3_writes =
        [S3Write.orig (upload_key "job1" ".jpg")] ∧
      ¬ timeoutFlavored "RuntimeError: Video generation failed" := by
  have hstuck : pollLoop (fun _ => procResp) wans2v_max_retries 0 = .failure :=
    pollLoop_stuck _ (fun i => ⟨rfl, rfl⟩) _ _
  have hv : wans2v s2vEnvStuck "Boy" = .failure := hstuck
  refine ⟨hv, ?_, ?_, ?_⟩
  · simp only [api_run_pipeline]
    rw [show apiEnvStuck.s2vEnv = s2vEnvStuck from rfl, hv]
    decide
  · simp only [api_run_pipeline]
    rw [show apiEnvStuck.s2vEnv = s2vEnvStuck from rfl, hv]
    decide
  · unfold timeoutFlavored
    decide

/-- C5 (amended): if the speech-to-video polls never resolve within the retry
budget, the job ends failed and no S3 write for the video is performed — but
the error is the generic "RuntimeError: Video generation failed": the timeout
is indistinguishable from any other falsy failure of `wans2v`. -/
theorem C5_video_timeout (env : ApiEnv) (job_id ext S : String)
    (phone : Option String) (r : List (String × ApiJob)) (ua : String)
    (hup : env.upload_exc = none)
    (hedit : nano_banana_edit env.editEnv S = .success ua)
    (haudio : env.s2vEnv.audio_b64.isSome = true)
    (hsubmit : env.s2vEnv.submit_ok = true)
    (hpoll : ∀ i, (env.s2vEnv.poll i).ok = true ∧
      (env.s2vEnv.poll i).status = .processing) :
    lookupT (api_run_pipeline env job_id ext S phone r).registry job_id =
        some (failedApiJob "RuntimeError: Video generation failed" phone) ∧
      ∀ k, S3Write.video k ∉ (api_run_pipeline env job_id ext S phone r).s3_writes := by
  obtain ⟨a, ha⟩ := Option.isSome_iff_exists.mp haudio
  have hv : wans2v env.s2vEnv S = .failure := by
    simp only [wans2v, ha, hsubmit, if_true]
    exact pollLoop_stuck _ hpoll _ _
  constructor
  · simp only [api_run_pipeline, hup, hedit, hv]
    exact lookupT_set_self _ _ _
  · intro k hk
    simp only [api_run_pipeline, hup, hedit, hv] at hk
    simp at hk

/-- Witness for C5's amended statement with the stuck environment. -/
theorem C5_video_timeout_witness :
    lookupT (api_run_pipeline apiEnvStuck "job1" ".jpg" "Boy" none []).registry
        "job1" =
      some (failedApiJob "RuntimeError: Video generation failed" none) ∧
      ∀ k, S3Write.video k ∉
        (api_run_pipeline apiEnvStuck "job1" ".jpg" "Boy" none []).s3_writes :=
  C5_video_timeout apiEnvStuck "job1" ".jpg" "Boy" none []
    "https://cdn/edited.jpeg" rfl (by decide) rfl rfl (fun i => ⟨rfl, rfl⟩)

/-! ### Claim C8 — submission validation of unrecognized styles -/

/-- C8 counterexample: the Gradio submission path accepts an unrecognized
style: `start_job` validates only that the three fields are non-empty, so the
submission does not fail, a runner is spawned, and its first operation
creates a job in the previously empty registry. -/
theorem C8_counterexample :
    "Alien" ∉ (["Male", "Female", "Boy", "Girl"] : List String) ∧
      start_job_ok "photo.jpg" "Alien" "123" = true ∧
      Exec [] (tracesOf [("123", envOk)])
        [("123", imageJob)]
        [[Op.videoOp "123", Op.completeOp "123" "result/videos/p.mp4"]] ∧
      ([("123", imageJob)] : List (String × AppJob)).length = 1 := by
  exact ⟨by decide, by decide, replay_exec [0] _ _ _ _ (by decide), rfl⟩

/-- C8 (amended): the API submission path rejects an unrecognized style
synchronously with HTTP 400: no job identifier is returned, the registry is
left exactly as it was, and no runner is spawned (so no job record can ever
appear for the rejected submission). -/
theorem C8_api_rejects_unknown_style (r : List (String × ApiJob))
    (job_id age_group content_type : String)
    (h : age_group ∉ (["Male", "Female", "Boy", "Girl"] : List String)) :
    create_job r job_id age_group content_type = ⟨Except.error 400, r, false⟩ := by
  simp [create_job, h]

/-- Witness for C8's amended statement at the style "Alien". -/
theorem C8_api_rejects_unknown_style_witness :
    create_job demoReg "j1" "Alien" "image/jpeg" =
      ⟨Except.error 400, demoReg, false⟩ :=
  C8_api_rejects_unknown_style demoReg "j1" "Alien" "image/jpeg" (by decide)

end UAEAnthem
